import Mathlib

/-!
Shallow embedding of the Node Registry & Telemetry Visualization core of
meshtui (`src/tabs/nodes.rs`), together with theorems settling the frozen
claims about it.

Modelling conventions:
* Rust `u32`/`u64`/`usize` fields are embedded as `ℕ`; `i32` as `ℤ`.
  Overflow never matters for the embedded operations except for the single
  `len() - 1` in `next_page`, which is noted at its definition.
* Rust `f32`/`f64` telemetry values are embedded as `ℚ`: every operation the
  claims touch only compares such values against `0.0` or copies them, and
  on (finite) float inputs those comparisons agree with the exact rational
  order, so no rounding behaviour is lost.
* The registry `HashMap<u32, ComprehensiveNode>` is embedded as an
  association list; `CircularBuffer<N, TimeSeriesData>` as a `List`
  (capacity never matters to the embedded operations, which only iterate).
* Operations that can `panic!` in the source (`unwrap()` on a missing
  lookup, unchecked `Vec` indexing) return `Option`, with `none` standing
  for the abort.
* Rendering/layout (ratatui widgets, styles, areas) is external plumbing
  and is not part of the data-level functions embedded here.
-/

namespace Meshtui

/-- `DisplayMode` from `src/tabs/nodes.rs`: the nodes-tab display state. -/
inductive DisplayMode
  | List
  | Detail
  | Help
deriving DecidableEq, Repr

/-- `Mode` from `crate::app` (only the two values `escape` can return are
needed: keep running, or exit the application). -/
inductive Mode
  | Running
  | Exiting
deriving DecidableEq, Repr

/-- `DisplayedGraph` from `src/tabs/nodes.rs`: the cyclic telemetry-metric
selector used in Detail mode. -/
inductive DisplayedGraph
  | Battery
  | Voltage
  | AirUtilization
  | ChannelUtilization
  | RSSI
  | SNR
  | Temperature
  | RelativeHumidity
  | BarometricPressure
  | GasResistance
deriving DecidableEq, Repr

/-- `DisplayedGraph::prev` (`src/tabs/nodes.rs:61-76`). -/
def DisplayedGraph.prev : DisplayedGraph → DisplayedGraph
  | .Battery => .GasResistance
  | .Voltage => .Battery
  | .AirUtilization => .Voltage
  | .ChannelUtilization => .AirUtilization
  | .RSSI => .ChannelUtilization
  | .SNR => .RSSI
  | .Temperature => .SNR
  | .RelativeHumidity => .Temperature
  | .BarometricPressure => .RelativeHumidity
  | .GasResistance => .BarometricPressure

/-- `DisplayedGraph::next` (`src/tabs/nodes.rs:77-91`). -/
def DisplayedGraph.next : DisplayedGraph → DisplayedGraph
  | .Battery => .Voltage
  | .Voltage => .AirUtilization
  | .AirUtilization => .ChannelUtilization
  | .ChannelUtilization => .RSSI
  | .RSSI => .SNR
  | .SNR => .Temperature
  | .Temperature => .RelativeHumidity
  | .RelativeHumidity => .BarometricPressure
  | .BarometricPressure => .GasResistance
  | .GasResistance => .Battery

/-- `meshtastic::protobufs::User` — only the fields this core reads.
Field defaults mirror the protobuf `Default` (empty strings, false). -/
structure User where
  id : String := ""
  long_name : String := ""
  short_name : String := ""
  is_licensed : Bool := false
deriving DecidableEq, Repr

/-- `meshtastic::protobufs::DeviceMetrics` — fields read by this core.
`battery_level` is a `u32` (the sentinel 101 means externally powered);
the Rust `Default` zero-initializes every field. -/
structure DeviceMetrics where
  battery_level : ℕ := 0
  voltage : ℚ := 0
  channel_utilization : ℚ := 0
  air_util_tx : ℚ := 0
deriving DecidableEq, Repr

/-- `meshtastic::protobufs::EnvironmentMetrics` — fields read by this core. -/
structure EnvironmentMetrics where
  temperature : ℚ := 0
  relative_humidity : ℚ := 0
  barometric_pressure : ℚ := 0
  gas_resistance : ℚ := 0
deriving DecidableEq, Repr

/-- `meshtastic::protobufs::Position` — fields read by this core. -/
structure Position where
  latitude_i : ℤ := 0
  longitude_i : ℤ := 0
  altitude : ℤ := 0
deriving DecidableEq, Repr

/-- `meshtastic::protobufs::NodeInfo` — fields read by this core. -/
structure NodeInfo where
  user : Option User := none
  position : Option Position := none
  device_metrics : Option DeviceMetrics := none
  via_mqtt : Bool := false
  hops_away : ℕ := 0
  last_heard : ℕ := 0
deriving DecidableEq, Repr

/-- `meshtastic::protobufs::Neighbor` — fields read by this core. -/
structure Neighbor where
  node_id : ℕ := 0
  snr : ℚ := 0
  last_rx_time : ℕ := 0
deriving DecidableEq, Repr

/-- `TimeSeriesData` (`src/tabs/nodes.rs:108-117`). The `air_quality` and
`power` fields of the source struct are never read by any operation
embedded here (no graph arm uses them) and are omitted. `Default`
zero-initializes every field. -/
structure TimeSeriesData where
  timestamp : ℕ := 0
  device : DeviceMetrics := {}
  environment : EnvironmentMetrics := {}
  rssi : ℚ := 0
  snr : ℚ := 0
deriving DecidableEq, Repr

/-- `ComprehensiveNode` (`src/tabs/nodes.rs:94-105`). The
`CircularBuffer<MAX_MSG_RETENTION, _>` is embedded as a `List` (the
embedded operations only iterate it; its capacity bound is irrelevant to
them). -/
structure ComprehensiveNode where
  id : ℕ := 0
  node_info : NodeInfo := {}
  last_seen : ℕ := 0
  neighbors : List Neighbor := []
  last_snr : ℚ := 0
  last_rssi : ℤ := 0
  route_list : List (ℕ × List ℕ) := []
  timeseries : List TimeSeriesData := []
  timeseries_start : ℕ := 0
deriving DecidableEq, Repr

/-- `ComprehensiveNode::with_id` (`src/tabs/nodes.rs:120-125`). -/
def ComprehensiveNode.with_id (id : ℕ) : ComprehensiveNode :=
  { id := id }

/-- `NodesTab` (`src/tabs/nodes.rs:33-45`). `table_state` keeps only the
`TableState::selected()` index, `scrollbar_state` only the scrollbar
position, and `prefs` only the one preference this core reads
(`show_mqtt`); the registry `HashMap` is an association list. -/
structure NodesTab where
  node_list : List (ℕ × ComprehensiveNode) := []
  table_state : Option ℕ := none
  table_contents : List ComprehensiveNode := []
  scrollbar_state : ℕ := 0
  my_node_id : ℕ := 0
  show_mqtt : Bool := false
  display_mode : DisplayMode := .List
  selected_node_id : ℕ := 0
  page_size : ℕ := 0
  which_graph : DisplayedGraph := .Battery
deriving DecidableEq, Repr

/-- `HashMap::get` on the embedded registry: first association for the key. -/
def nodeGet (l : List (ℕ × ComprehensiveNode)) (k : ℕ) :
    Option ComprehensiveNode :=
  (l.find? (fun p => p.1 = k)).map (fun p => p.2)

/-- The value the active graph arm of `make_graph`
(`src/tabs/nodes.rs:409-469`) projects out of one sample: each arm maps the
timeseries to `(timestamp as f64, <field> as f64)` with the field shown
below. -/
def metricValue (g : DisplayedGraph) (d : TimeSeriesData) : ℚ :=
  match g with
  | .Battery => (d.device.battery_level : ℚ)
  | .Voltage => d.device.voltage
  | .AirUtilization => d.device.air_util_tx
  | .ChannelUtilization => d.device.channel_utilization
  | .RSSI => d.rssi
  | .SNR => d.snr
  | .Temperature => d.environment.temperature
  | .RelativeHumidity => d.environment.relative_humidity
  | .BarometricPressure => d.environment.barometric_pressure
  | .GasResistance => d.environment.gas_resistance

/-- The data-construction part of `make_graph` (`src/tabs/nodes.rs:402-472`):
look up the selected node (`.unwrap()` — `none` models the abort), project
`(timestamp, value)` pairs for the active metric, then
`data.retain(|(_, datum)| datum > &0.0)`. -/
def make_graph_data (t : NodesTab) : Option (List (ℚ × ℚ)) :=
  match nodeGet t.node_list t.selected_node_id with
  | none => none
  | some cn =>
      let data := cn.timeseries.map
        (fun d => ((d.timestamp : ℚ), metricValue t.which_graph d))
      some (data.filter (fun p => 0 < p.2))

/-- The table-recomputation part of `run` (`src/tabs/nodes.rs:152-171`):
snapshot the registry values, drop `via_mqtt` records when `show_mqtt` is
off (the source's `filter_map` keeping `cn` iff `!cn.node_info.via_mqtt`),
sort ascending by `last_seen` with the stable `Vec::sort_by`, then
`reverse()`. `Vec::sort_by` is a stable sort, and a stable sort's output is
determined by the comparator, so the stable `List.insertionSort` with the
same comparison embeds it exactly. -/
def projectRows (show_mqtt : Bool) (snapshot : List ComprehensiveNode) :
    List ComprehensiveNode :=
  let tc :=
    if show_mqtt then snapshot
    else snapshot.filterMap
      (fun cn => if !cn.node_info.via_mqtt then some cn else none)
  (List.insertionSort (fun a b => a.last_seen ≤ b.last_seen) tc).reverse

/-- `run` (`src/tabs/nodes.rs:145-171`) restricted to the state this core
owns: reading `PREFERENCES`/`PAGE_SIZE` is external; the recomputation of
`table_contents` from the registry snapshot is `projectRows`. -/
def run (t : NodesTab) : NodesTab :=
  { t with table_contents := projectRows t.show_mqtt (t.node_list.map (fun p => p.2)) }

/-- The registry/identity lookups of `get_details_for_node`
(`src/tabs/nodes.rs:172-401`): `node_list.get(&my_node_id).unwrap()`,
`node_list.get(&selected_node_id).cloned().unwrap()`, and for every
neighbor entry `node_list.get(&item.node_id).unwrap().node_info.user
.unwrap().id` (`src/tabs/nodes.rs:347-356`). `none` models the `unwrap()`
abort; on success the function returns the caller's record, the selected
record, and the neighbor id strings the view renders. (The `route_list`
lookup at line 382 is an `if let` and cannot abort.) -/
def get_details_for_node (t : NodesTab) :
    Option (ComprehensiveNode × ComprehensiveNode × List String) :=
  match nodeGet t.node_list t.my_node_id with
  | none => none
  | some me =>
      match nodeGet t.node_list t.selected_node_id with
      | none => none
      | some cn =>
          (cn.neighbors.mapM (fun item =>
            (nodeGet t.node_list item.node_id).bind
              (fun r => r.node_info.user.map (fun u => u.id)))).map
            (fun ids => (me, cn, ids))

/-- `meshtastic::protobufs::Data` — the `Decoded` payload of a mesh packet,
with the fields `send_traceroute` sets. Payload bytes are a `List ℕ`. -/
structure MeshData where
  portnum : ℤ := 0
  payload : List ℕ := []
  want_response : Bool := false
  dest : ℕ := 0
  source : ℕ := 0
  request_id : ℕ := 0
  reply_id : ℕ := 0
  emoji : ℕ := 0
deriving DecidableEq, Repr

/-- The numeric value of `PortNum::TracerouteApp` in the meshtastic
protobuf enumeration (external to this repository). -/
def tracerouteAppPort : ℤ := 70

/-- `meshtastic::protobufs::MeshPacket` — the fields `send_traceroute`
sets. The Rust fields `from` and `to` are Lean keywords, embedded as `from_` and `to_`;
`payload_variant` holds the `Decoded` data (the only variant this core
constructs). -/
structure MeshPacket where
  from_ : ℕ := 0
  to_ : ℕ := 0
  channel : ℕ := 0
  id : ℕ := 0
  rx_time : ℕ := 0
  rx_snr : ℚ := 0
  hop_limit : ℕ := 0
  want_ack : Bool := false
  priority : ℕ := 0
  rx_rssi : ℤ := 0
  delayed : ℕ := 0
  via_mqtt : Bool := false
  hop_start : ℕ := 0
  payload_variant : Option MeshData := none
deriving DecidableEq, Repr

/-- One log line emitted by this core (the claims only count error vs info
events, not their text). -/
inductive LogEvent
  | errorEvent
  | infoEvent
deriving DecidableEq, Repr

/-- `send_traceroute` (`src/tabs/nodes.rs:520-559`). The external
`util::send_to_radio` submission outcome is the parameter `sendOk`.
Returns the updated tab, the constructed packet (if any), and the log
events, or `none` for the abort of the unchecked `table_contents[index]`
when the selection is out of bounds. With no selection the function is a
no-op. -/
def send_traceroute (t : NodesTab) (sendOk : Bool) :
    Option (NodesTab × Option MeshPacket × List LogEvent) :=
  match t.table_state with
  | none => some (t, none, [])
  | some index =>
      match t.table_contents.get? index with
      | none => none
      | some row =>
          let t2 := { t with selected_node_id := row.id }
          let mesh_packet : MeshPacket :=
            { from_ := 0
              to_ := t2.selected_node_id
              channel := 0
              id := 0
              rx_time := 0
              rx_snr := 0
              hop_limit := 0
              want_ack := true
              priority := 0
              rx_rssi := 0
              delayed := 0
              via_mqtt := true
              hop_start := 0
              payload_variant := some
                { portnum := tracerouteAppPort
                  payload := []
                  want_response := true
                  dest := 0
                  source := 0
                  request_id := 0
                  reply_id := 0
                  emoji := 0 } }
          some (t2, some mesh_packet,
            [if sendOk then LogEvent.infoEvent else LogEvent.errorEvent])

/-- `escape` (`src/tabs/nodes.rs:560-572`): returns the updated tab and the
application `Mode` the source returns. -/
def escape (t : NodesTab) : NodesTab × Mode :=
  match t.display_mode with
  | .List => (t, Mode.Exiting)
  | .Detail => ({ t with display_mode := .List }, Mode.Running)
  | .Help => ({ t with display_mode := .List }, Mode.Running)

/-- `enter_key` (`src/tabs/nodes.rs:573-584`). In List mode with a selected
index the source reads `table_contents[index]` unchecked — `none` models
the abort on a stale/out-of-range selection. -/
def enter_key (t : NodesTab) : Option NodesTab :=
  match t.display_mode with
  | .List =>
      match t.table_state with
      | some index =>
          match t.table_contents.get? index with
          | none => none
          | some row =>
              some { t with selected_node_id := row.id,
                            display_mode := .Detail }
      | none => some t
  | .Detail => some { t with display_mode := .List }
  | .Help => some { t with display_mode := .List }

/-- `prev_row` (`src/tabs/nodes.rs:585-600`): wrap from index 0 to the last
index of `table_contents` (saturating, so 0 on an empty set). -/
def prev_row (t : NodesTab) : NodesTab :=
  if t.display_mode = DisplayMode.List then
    let i :=
      match t.table_state with
      | some i => if i = 0 then t.table_contents.length - 1 else i - 1
      | none => 0
    { t with table_state := some i, scrollbar_state := i }
  else t

/-- `next_row` (`src/tabs/nodes.rs:602-617`): wrap past the last index of
`table_contents` back to 0. -/
def next_row (t : NodesTab) : NodesTab :=
  if t.display_mode = DisplayMode.List then
    let i :=
      match t.table_state with
      | some i => if i ≥ t.table_contents.length - 1 then 0 else i + 1
      | none => 0
    { t with table_state := some i, scrollbar_state := i }
  else t

/-- `next_page` (`src/tabs/nodes.rs:618-633`). The clamp is computed from
`node_list.len()` (the unfiltered registry), not from
`table_contents.len()`. The source's `self.node_list.len() - 1` is an
unchecked `usize` subtraction that under/overflows when the registry is
empty while a selection exists; `ℕ` subtraction yields 0 there, and every
theorem about this function assumes a non-empty registry, where the two
agree. -/
def next_page (t : NodesTab) : NodesTab :=
  if t.display_mode = DisplayMode.List then
    let i :=
      match t.table_state with
      | some i =>
          if i ≥ t.node_list.length - t.page_size then t.node_list.length - 1
          else i + t.page_size
      | none => 0
    { t with table_state := some i }
  else t

/-- `prev_page` (`src/tabs/nodes.rs:634-648`): saturating jump towards 0
(the source maps any `i ≤ page_size` to 0). -/
def prev_page (t : NodesTab) : NodesTab :=
  if t.display_mode = DisplayMode.List then
    let i :=
      match t.table_state with
      | some i => if i ≤ t.page_size then 0 else i - t.page_size
      | none => 0
    { t with table_state := some i }
  else t

/-- `prev_tab` (`src/tabs/nodes.rs:129-136`). `MenuTabs` and its
`prev`/`next` transitions live in `crate::app`, external to this core;
they are passed in as an abstract tab value and transition function. -/
def prev_tab (tabPrev : ℕ → ℕ) (t : NodesTab) (app_tab : ℕ) :
    NodesTab × ℕ :=
  if t.display_mode = DisplayMode.Detail then
    ({ t with which_graph := t.which_graph.prev }, app_tab)
  else (t, tabPrev app_tab)

/-- `next_tab` (`src/tabs/nodes.rs:137-144`). -/
def next_tab (tabNext : ℕ → ℕ) (t : NodesTab) (app_tab : ℕ) :
    NodesTab × ℕ :=
  if t.display_mode = DisplayMode.Detail then
    ({ t with which_graph := t.which_graph.next }, app_tab)
  else (t, tabNext app_tab)

/-! ### Concrete fixtures used by witnesses and counterexamples -/

/-- A record with identical `last_seen` as `tieB` but a different id. -/
def tieA : ComprehensiveNode := { ComprehensiveNode.with_id 1 with last_seen := 5 }

/-- A record with identical `last_seen` as `tieA` but a different id. -/
def tieB : ComprehensiveNode := { ComprehensiveNode.with_id 2 with last_seen := 5 }

/-- A node whose only telemetry sample has a negative SNR reading. -/
def negSnrNode : ComprehensiveNode :=
  { ComprehensiveNode.with_id 7 with
    timeseries := [{ timestamp := 100, snr := -5 }] }

/-- Detail view of `negSnrNode` with the SNR graph active. -/
def negSnrTab : NodesTab :=
  { node_list := [(7, negSnrNode)], selected_node_id := 7,
    which_graph := .SNR, display_mode := .Detail }

/-- A node whose only telemetry sample has the small positive SNR 0.0001. -/
def smallPosNode : ComprehensiveNode :=
  { ComprehensiveNode.with_id 8 with
    timeseries := [{ timestamp := 100, snr := 1 / 10000 }] }

/-- Detail view of `smallPosNode` with the SNR graph active. -/
def smallPosTab : NodesTab :=
  { node_list := [(8, smallPosNode)], selected_node_id := 8,
    which_graph := .SNR, display_mode := .Detail }

/-- A registry of 50 records of which the filtered view keeps only 40 rows:
exercises the `next_page` clamp against the unfiltered registry size. -/
def pageTab : NodesTab :=
  { node_list := (List.range 50).map (fun k => (k, ComprehensiveNode.with_id k)),
    table_contents := (List.range 40).map ComprehensiveNode.with_id,
    table_state := some 35,
    display_mode := .List,
    page_size := 10 }

/-- The single row of `probeTab` (node id 2). -/
def probeRow : ComprehensiveNode := ComprehensiveNode.with_id 2

/-- Tab with node 2 selected in the row set while `selected_node_id` still
holds the previously captured node 1. -/
def probeTab : NodesTab :=
  { table_contents := [probeRow], table_state := some 0, selected_node_id := 1,
    display_mode := .List }

/-- The traceroute packet `send_traceroute` constructs for destination 2. -/
def tracePktTo2 : MeshPacket :=
  { to_ := 2, want_ack := true, via_mqtt := true,
    payload_variant := some
      { portnum := tracerouteAppPort, payload := [], want_response := true } }

/-- A node whose neighbor list names node 99. -/
def lonelyNeighborNode : ComprehensiveNode :=
  { ComprehensiveNode.with_id 3 with neighbors := [{ node_id := 99 }] }

/-- Detail view where the caller's own record (id 1) is absent. -/
def detailTabNoSelf : NodesTab :=
  { node_list := [(3, lonelyNeighborNode)], my_node_id := 1,
    selected_node_id := 3, display_mode := .Detail }

/-- Detail view where the selected record (id 3) is absent. -/
def detailTabNoSelected : NodesTab :=
  { node_list := [(1, ComprehensiveNode.with_id 1)], my_node_id := 1,
    selected_node_id := 3, display_mode := .Detail }

/-- Detail view where the selected node's neighbor (id 99) is absent. -/
def detailTabNoNeighbor : NodesTab :=
  { node_list := [(1, ComprehensiveNode.with_id 1), (3, lonelyNeighborNode)],
    my_node_id := 1, selected_node_id := 3, display_mode := .Detail }

/-- Detail view where the neighbor record exists but carries no identity
payload (`user` is absent). -/
def detailTabNoUser : NodesTab :=
  { node_list := [(1, ComprehensiveNode.with_id 1), (3, lonelyNeighborNode),
      (99, ComprehensiveNode.with_id 99)],
    my_node_id := 1, selected_node_id := 3, display_mode := .Detail }

/-- A selection index pointing into an empty (stale) row set. -/
def staleSelTab : NodesTab :=
  { table_contents := [], table_state := some 0, display_mode := .List }

/-- List mode, three rows, last row selected. -/
def rowTabLast : NodesTab :=
  { table_contents := [ComprehensiveNode.with_id 1, ComprehensiveNode.with_id 2,
      ComprehensiveNode.with_id 3],
    table_state := some 2, display_mode := .List }

/-- List mode, three rows, first row selected. -/
def rowTabFirst : NodesTab := { rowTabLast with table_state := some 0 }

/-- List mode, three rows, no selection yet. -/
def rowTabNone : NodesTab := { rowTabLast with table_state := none }

/-- A minimal Detail-mode tab. -/
def detailModeTab : NodesTab := { display_mode := DisplayMode.Detail }

/-- A minimal Help-mode tab. -/
def helpModeTab : NodesTab := { display_mode := DisplayMode.Help }

/-! ### Helper lemmas -/

/-- The `filter_map` in `run` that keeps non-MQTT records is the filter by
the negated flag (stated in the normal form `via_mqtt = false` that `simp`
produces for the source's `!cn.node_info.via_mqtt` condition). -/
theorem filterMap_not_mqtt_eq_filter (l : List ComprehensiveNode) :
    l.filterMap (fun cn => if cn.node_info.via_mqtt = false then some cn else none)
      = l.filter (fun cn => !cn.node_info.via_mqtt) := by
  induction l with
  | nil => rfl
  | cons a l ih =>
      by_cases h : a.node_info.via_mqtt
      · rw [List.filterMap_cons_none (by simp [h]),
          List.filter_cons_of_neg (by simp [h]), ih]
      · rw [List.filterMap_cons_some (b := a) (by simp [h]),
          List.filter_cons_of_pos (by simp [h]), ih]

/-- Records kept by the MQTT filter and records dropped by it partition the
snapshot. -/
theorem length_filter_not_mqtt (l : List ComprehensiveNode) :
    (l.filter (fun cn => !cn.node_info.via_mqtt)).length
      + (l.filter (fun cn => cn.node_info.via_mqtt)).length = l.length := by
  induction l with
  | nil => rfl
  | cons a l ih =>
      by_cases h : a.node_info.via_mqtt <;> simp [List.filter_cons, h] <;> omega

/-! ### Claim theorems -/

/-- C6: the graph selector cycles over exactly ten metrics: `next` applied
ten times is the identity, `prev` applied ten times is the identity, and
`next` and `prev` are mutual inverses. -/
theorem graph_selector_ten_cycle (g : DisplayedGraph) :
    DisplayedGraph.next^[10] g = g ∧ DisplayedGraph.prev^[10] g = g
      ∧ g.next.prev = g ∧ g.prev.next = g := by
  cases g <;> exact ⟨rfl, rfl, rfl, rfl⟩

/-- C8: in List mode, single-row stepping wraps: `next_row` from the last
index selects 0, `prev_row` from 0 selects the last index, and from no
selection either operation selects 0. -/
theorem row_stepping_wraps (t : NodesTab)
    (hmode : t.display_mode = DisplayMode.List)
    (hne : t.table_contents ≠ []) :
    (t.table_state = some (t.table_contents.length - 1) →
        (next_row t).table_state = some 0)
      ∧ (t.table_state = some 0 →
          (prev_row t).table_state = some (t.table_contents.length - 1))
      ∧ (t.table_state = none →
          (next_row t).table_state = some 0
            ∧ (prev_row t).table_state = some 0) := by
  have _hkeep := hne
  refine ⟨fun hsel => ?_, fun hsel => ?_, fun hsel => ?_⟩
  · simp [next_row, hmode, hsel]
  · simp [prev_row, hmode, hsel]
  · exact ⟨by simp [next_row, hmode, hsel], by simp [prev_row, hmode, hsel]⟩

/-- Witness for C8 at a three-row set: wrap forward from index 2, wrap
backward from index 0, and initial selection from `none`. -/
theorem row_stepping_wraps_witness :
    (next_row rowTabLast).table_state = some 0
      ∧ (prev_row rowTabFirst).table_state = some 2
      ∧ (next_row rowTabNone).table_state = some 0 := by
  refine ⟨?_, ?_, ?_⟩
  · exact (row_stepping_wraps rowTabLast rfl (by decide)).1 rfl
  · exact (row_stepping_wraps rowTabFirst rfl (by decide)).2.1 rfl
  · exact ((row_stepping_wraps rowTabNone rfl (by decide)).2.2 rfl).1

/-- C3 (amended): in List mode with a selection, `prev_page` selects
`i - page_size` saturating at 0, and `next_page` selects
`min (i + page_size) (registrySize - 1)` — the clamp is computed from the
unfiltered registry `node_list`, not from the filtered row set. -/
theorem page_nav_clamps_to_registry (t : NodesTab) (i : ℕ)
    (hmode : t.display_mode = DisplayMode.List)
    (hsel : t.table_state = some i)
    (hne : 0 < t.node_list.length) :
    (next_page t).table_state =
        some (min (i + t.page_size) (t.node_list.length - 1))
      ∧ (prev_page t).table_state = some (i - t.page_size) := by
  constructor
  · simp [next_page, hmode, hsel]
    split_ifs with h <;> omega
  · simp [prev_page, hmode, hsel]
    intro h
    omega

/-- Witness for C3 (amended) on `pageTab` (registry of 50, selection 35,
page size 10): `next_page` lands on 45 = min 45 49, `prev_page` on 25. -/
theorem page_nav_clamps_to_registry_witness :
    (next_page pageTab).table_state = some 45
      ∧ (prev_page pageTab).table_state = some 25 := by
  have h := page_nav_clamps_to_registry pageTab 35 rfl rfl (by decide)
  exact ⟨h.1.trans (by decide), h.2.trans (by decide)⟩

/-- C3 counterexample: on `pageTab` the filtered row set has 40 rows with
index 35 selected and page size 10, so the claim predicts
`min (35 + 10) (40 - 1) = 39`; the code selects 45 (clamped against the
50-record registry instead), an index past the end of the row set. -/
theorem page_nav_exceeds_filtered_rows :
    pageTab.table_contents.length = 40
      ∧ pageTab.table_state = some 35
      ∧ pageTab.page_size = 10
      ∧ (next_page pageTab).table_state = some 45
      ∧ some 45 ≠ some (min (35 + 10) (40 - 1)) := by decide

/-- The projected row count before/after the MQTT filter. -/
theorem projectRows_length (s : Bool) (l : List ComprehensiveNode) :
    (projectRows s l).length =
      if s then l.length
      else (l.filter (fun cn => !cn.node_info.via_mqtt)).length := by
  unfold projectRows
  cases s <;> simp [filterMap_not_mqtt_eq_filter]

/-- C7: the projected row count equals the registry size when bridge-relayed
records are shown, and the registry size minus the number of via-MQTT
records when they are hidden. -/
theorem mqtt_filter_row_count (t : NodesTab) :
    (run t).table_contents.length =
      if t.show_mqtt then t.node_list.length
      else t.node_list.length
        - ((t.node_list.map (fun p => p.2)).filter
            (fun cn => cn.node_info.via_mqtt)).length := by
  show (projectRows t.show_mqtt (t.node_list.map (fun p => p.2))).length = _
  rw [projectRows_length]
  have h1 := length_filter_not_mqtt (t.node_list.map (fun p => p.2))
  have h2 : (t.node_list.map (fun p => p.2)).length = t.node_list.length :=
    List.length_map _ _
  cases h : t.show_mqtt
  · simp
    omega
  · simp

/-- An ascending stable sort by `last_seen` followed by `reverse` is
strictly descending by `last_seen` whenever the keys are pairwise
distinct. -/
theorem sorted_reverse_strict_desc (l : List ComprehensiveNode)
    (h : l.Pairwise (fun a b => a.last_seen ≠ b.last_seen)) :
    ((List.insertionSort (fun a b => a.last_seen ≤ b.last_seen) l).reverse).Pairwise
      (fun x y => y.last_seen < x.last_seen) := by
  haveI : IsTotal ComprehensiveNode (fun a b => a.last_seen ≤ b.last_seen) :=
    ⟨fun x y => Nat.le_total _ _⟩
  haveI : IsTrans ComprehensiveNode (fun a b => a.last_seen ≤ b.last_seen) :=
    ⟨fun x y z hxy hyz => Nat.le_trans hxy hyz⟩
  have hsorted0 := List.sorted_insertionSort
    (fun a b : ComprehensiveNode => a.last_seen ≤ b.last_seen) l
  have hsorted : (List.insertionSort
      (fun a b : ComprehensiveNode => a.last_seen ≤ b.last_seen) l).Pairwise
        (fun a b => a.last_seen ≤ b.last_seen) := hsorted0
  have hperm := List.perm_insertionSort
    (fun a b : ComprehensiveNode => a.last_seen ≤ b.last_seen) l
  have hne : (List.insertionSort
      (fun a b : ComprehensiveNode => a.last_seen ≤ b.last_seen) l).Pairwise
        (fun a b => a.last_seen ≠ b.last_seen) :=
    (hperm.pairwise_iff (fun hxy => Ne.symm hxy)).mpr h
  have hlt := (hsorted.and hne).imp
    (fun hc => Nat.lt_of_le_of_ne hc.1 hc.2)
  exact List.pairwise_reverse.mpr hlt

/-- C2 (amended): the projection stably sorts the snapshot ascending by
`last_seen` and then reverses it, so for pairwise-distinct `last_seen` the
projected sequence is strictly descending by `last_seen`; two records with
equal `last_seen` come out in reversed input order, not input order. -/
theorem projected_sort_descending (s : Bool) (snapshot : List ComprehensiveNode)
    (hdist : snapshot.Pairwise (fun a b => a.last_seen ≠ b.last_seen))
    (a b : ComprehensiveNode) (hab : a.last_seen = b.last_seen) :
    (projectRows s snapshot).Pairwise (fun x y => y.last_seen < x.last_seen)
      ∧ projectRows true [a, b] = [b, a] := by
  constructor
  · simp only [projectRows]
    apply sorted_reverse_strict_desc
    cases s
    · have hfil := hdist.filter (fun cn => !cn.node_info.via_mqtt)
      simpa [filterMap_not_mqtt_eq_filter] using hfil
    · simpa using hdist
  · simp [projectRows, List.insertionSort, List.orderedInsert, hab]

/-- Witness for C2 (amended): distinct keys 5 and 9 come out strictly
descending, and the equal-key pair `tieA`, `tieB` comes out reversed. -/
theorem projected_sort_descending_witness :
    (projectRows true [tieA, { tieB with last_seen := 9 }]).Pairwise
      (fun x y => y.last_seen < x.last_seen)
      ∧ projectRows true [tieA, tieB] = [tieB, tieA] :=
  projected_sort_descending true [tieA, { tieB with last_seen := 9 }]
    (by decide) tieA tieB (by decide)

/-- C2 counterexample: the records `tieA` (id 1) and `tieB` (id 2) share
`last_seen = 5`; the projection emits them as `[tieB, tieA]`, the reverse
of their input order, refuting "records with equal last_seen retain their
relative order from the input sequence". -/
theorem projected_sort_ties_not_stable :
    projectRows true [tieA, tieB] = [tieB, tieA]
      ∧ [tieB, tieA] ≠ [tieA, tieB] := by decide

/-- C1 (amended): a `(timestamp, value)` pair survives extraction iff its
value is strictly positive — 0.0 is dropped and 0.0001 kept, but negative
values (in particular negative SNR/RSSI readings) are dropped as well. -/
theorem graph_series_keeps_iff_positive (t : NodesTab) (cn : ComprehensiveNode)
    (hsel : nodeGet t.node_list t.selected_node_id = some cn) :
    ∃ l, make_graph_data t = some l ∧
      ∀ p : ℚ × ℚ,
        p ∈ l ↔ ((∃ d ∈ cn.timeseries,
            ((d.timestamp : ℚ), metricValue t.which_graph d) = p) ∧ 0 < p.2) := by
  have hval : make_graph_data t = some
      ((cn.timeseries.map
        (fun d => ((d.timestamp : ℚ), metricValue t.which_graph d))).filter
          (fun p => 0 < p.2)) := by
    unfold make_graph_data
    rw [hsel]
  refine ⟨_, hval, fun p => ?_⟩
  simp [List.mem_filter, List.mem_map]

/-- Witness for C1 (amended) on `smallPosTab`, whose single sample has the
positive value 0.0001. -/
theorem graph_series_keeps_iff_positive_witness :
    ∃ l, make_graph_data smallPosTab = some l ∧
      ∀ p : ℚ × ℚ,
        p ∈ l ↔ ((∃ d ∈ smallPosNode.timeseries,
            ((d.timestamp : ℚ), metricValue smallPosTab.which_graph d) = p)
          ∧ 0 < p.2) :=
  graph_series_keeps_iff_positive smallPosTab smallPosNode rfl

/-- C1 counterexample: the selected node of `negSnrTab` has exactly one SNR
sample, `(100, −5)` — a non-zero value — yet the extracted series is empty:
the code drops every value that is not strictly positive, not only exact
zeroes. -/
theorem graph_series_drops_negative :
    negSnrNode.timeseries.map
        (fun d => ((d.timestamp : ℚ), metricValue negSnrTab.which_graph d))
      = [(100, -5)]
      ∧ make_graph_data negSnrTab = some []
      ∧ ((-5 : ℚ) ≠ 0) := by decide

/-- C4 (amended): with a row selected, `send_traceroute` constructs exactly
one outbound packet — destination the selected row's id, `want_ack` and
`want_response` true, empty payload, zero priority/channel/ids — and emits
exactly one log entry (error on submission failure, info on success). The
registry, display mode and table selection are unchanged, but
`selected_node_id` is overwritten with the selected row's id before the
submission, whether or not it succeeds. -/
theorem traceroute_construction (t : NodesTab) (i : ℕ) (row : ComprehensiveNode)
    (hsel : t.table_state = some i)
    (hrow : t.table_contents[i]? = some row) (sendOk : Bool) :
    send_traceroute t sendOk = some
      ({ t with selected_node_id := row.id },
        some { from_ := 0, to_ := row.id, channel := 0, id := 0, rx_time := 0,
               rx_snr := 0, hop_limit := 0, want_ack := true, priority := 0,
               rx_rssi := 0, delayed := 0, via_mqtt := true, hop_start := 0,
               payload_variant := some
                 { portnum := tracerouteAppPort, payload := [],
                   want_response := true, dest := 0, source := 0,
                   request_id := 0, reply_id := 0, emoji := 0 } },
        [if sendOk then LogEvent.infoEvent else LogEvent.errorEvent]) := by
  unfold send_traceroute
  rw [hsel]
  simp only [List.get?_eq_getElem?, hrow]

/-- Witness for C4 (amended) on `probeTab` with a failing submission. -/
theorem traceroute_construction_witness :
    send_traceroute probeTab false = some
      ({ probeTab with selected_node_id := 2 }, some tracePktTo2,
        [LogEvent.errorEvent]) :=
  (traceroute_construction probeTab 0 probeRow rfl rfl false).trans (by decide)

/-- C4 counterexample: `probeTab` still holds node 1 as `selected_node_id`
while row 0 (node 2) is selected; a failed submission leaves
`selected_node_id = 2`, so state exposed by this core did change. -/
theorem traceroute_failure_changes_selection :
    probeTab.selected_node_id = 1
      ∧ send_traceroute probeTab false = some
          ({ probeTab with selected_node_id := 2 }, some tracePktTo2,
            [LogEvent.errorEvent])
      ∧ ({ probeTab with selected_node_id := 2 } : NodesTab).selected_node_id
          ≠ probeTab.selected_node_id := by decide

/-- C10: every packet this core constructs carries `via_mqtt = true`,
whatever the tab state and submission outcome, alongside the
acknowledgment and response flags. -/
theorem traceroute_always_via_mqtt (t : NodesTab) (sendOk : Bool)
    (st : NodesTab) (pkt : MeshPacket) (logs : List LogEvent)
    (h : send_traceroute t sendOk = some (st, some pkt, logs)) :
    pkt.via_mqtt = true ∧ pkt.want_ack = true
      ∧ pkt.payload_variant.map (fun d => d.want_response) = some true := by
  unfold send_traceroute at h
  split at h
  · simp at h
  · split at h
    · exact absurd h (by simp)
    · simp only [Option.some.injEq, Prod.mk.injEq] at h
      obtain ⟨-, hpkt, -⟩ := h
      subst hpkt
      exact ⟨rfl, rfl, rfl⟩

/-- Witness for C10 at `probeTab` with a failing submission. -/
theorem traceroute_always_via_mqtt_witness :
    tracePktTo2.via_mqtt = true ∧ tracePktTo2.want_ack = true
      ∧ tracePktTo2.payload_variant.map (fun d => d.want_response) = some true :=
  traceroute_always_via_mqtt probeTab false
    { probeTab with selected_node_id := 2 } tracePktTo2 [LogEvent.errorEvent]
    (by decide)

/-- C5: the display-mode machine: from List, enter on a selected row goes
to Detail capturing the row's node id (and is a no-op without a selection)
while escape exits; from Detail, enter or escape returns to List and
left/right advance the graph selector leaving the tab unchanged; from
Help, enter or escape returns to List; and tab navigation never changes
the display mode. -/
theorem display_mode_machine (t : NodesTab) (nf pf : ℕ → ℕ) (tab : ℕ) :
    (t.display_mode = DisplayMode.List →
        (∀ i row, t.table_state = some i → t.table_contents[i]? = some row →
            enter_key t = some { t with selected_node_id := row.id,
                                        display_mode := DisplayMode.Detail })
          ∧ (t.table_state = none → enter_key t = some t)
          ∧ escape t = (t, Mode.Exiting))
      ∧ (t.display_mode = DisplayMode.Detail →
          enter_key t = some { t with display_mode := DisplayMode.List }
            ∧ escape t = ({ t with display_mode := DisplayMode.List }, Mode.Running)
            ∧ next_tab nf t tab
                = ({ t with which_graph := t.which_graph.next }, tab)
            ∧ prev_tab pf t tab
                = ({ t with which_graph := t.which_graph.prev }, tab))
      ∧ (t.display_mode = DisplayMode.Help →
          enter_key t = some { t with display_mode := DisplayMode.List }
            ∧ escape t = ({ t with display_mode := DisplayMode.List }, Mode.Running))
      ∧ (next_tab nf t tab).1.display_mode = t.display_mode
      ∧ (prev_tab pf t tab).1.display_mode = t.display_mode := by
  refine ⟨fun hm => ⟨fun i row hi hrow => ?_, fun hnone => ?_, ?_⟩,
    fun hm => ⟨?_, ?_, ?_, ?_⟩, fun hm => ⟨?_, ?_⟩, ?_, ?_⟩
  · simp [enter_key, hm, hi, hrow]
  · simp [enter_key, hm, hnone]
  · simp [escape, hm]
  · simp [enter_key, hm]
  · simp [escape, hm]
  · simp [next_tab, hm]
  · simp [prev_tab, hm]
  · simp [enter_key, hm]
  · simp [escape, hm]
  · by_cases hd : t.display_mode = DisplayMode.Detail <;> simp [next_tab, hd]
  · by_cases hd : t.display_mode = DisplayMode.Detail <;> simp [prev_tab, hd]

/-- Witness for C5 at concrete tabs in each of the three modes. -/
theorem display_mode_machine_witness :
    enter_key probeTab = some { probeTab with selected_node_id := 2,
                                              display_mode := DisplayMode.Detail }
      ∧ escape probeTab = (probeTab, Mode.Exiting)
      ∧ enter_key detailModeTab
          = some { detailModeTab with display_mode := DisplayMode.List }
      ∧ escape detailModeTab
          = ({ detailModeTab with display_mode := DisplayMode.List }, Mode.Running)
      ∧ next_tab Nat.succ detailModeTab 0
          = ({ detailModeTab with which_graph := DisplayedGraph.Battery.next }, 0)
      ∧ enter_key helpModeTab
          = some { helpModeTab with display_mode := DisplayMode.List } := by
  refine ⟨?_, ?_, ?_, ?_, ?_, ?_⟩
  · exact ((display_mode_machine probeTab Nat.succ Nat.succ 0).1 rfl).1 0 probeRow
      rfl rfl
  · exact ((display_mode_machine probeTab Nat.succ Nat.succ 0).1 rfl).2.2
  · exact ((display_mode_machine detailModeTab Nat.succ Nat.succ 0).2.1 rfl).1
  · exact ((display_mode_machine detailModeTab Nat.succ Nat.succ 0).2.1 rfl).2.1
  · exact ((display_mode_machine detailModeTab Nat.succ Nat.succ 0).2.1 rfl).2.2.1
  · exact ((display_mode_machine helpModeTab Nat.succ Nat.succ 0).2.2.1 rfl).1

/-- C9: the code aborts on missing lookups instead of degrading safely:
rendering Detail with the caller's own record, the selected record, a
neighbor's record or a neighbor's identity payload absent from the
registry all hit an `unwrap()` (modelled `none` = panic), and a selection
index into an empty row set hits an unchecked `Vec` index — where the
claim requires defensive no-ops or safe defaults. -/
theorem unchecked_lookups_abort :
    get_details_for_node detailTabNoSelf = none
      ∧ get_details_for_node detailTabNoSelected = none
      ∧ get_details_for_node detailTabNoNeighbor = none
      ∧ get_details_for_node detailTabNoUser = none
      ∧ enter_key staleSelTab = none
      ∧ send_traceroute staleSelTab true = none
      ∧ make_graph_data detailTabNoSelected = none := by decide

end Meshtui
